import Mathlib

/-!
Shallow embedding of the BlipLogs SDK core (src/src/index.ts) in Lean 4.

The TypeScript class `BlipLogs` is embedded as pure Lean functions over an
explicit environment record `Env` (clock, UUID source, sessionStorage,
window/navigator capabilities, fetch/beacon outcomes, and the platform URL
parser).  Stateful operations thread `Env` explicitly.  Machine-level
platform APIs the code calls (WHATWG `URL`, `Date`, `crypto.randomUUID`,
`navigator.sendBeacon`, `fetch`) are modelled as oracles inside `Env`;
their reachable behaviours are parameters of the theorems, never hardwired.

Modelling conventions, stated once:
* JavaScript `Date.now()` / `new Date()` calls are successive reads of a
  clock oracle `clock : Nat -> Nat` indexed by a read counter; the clock
  may advance between two reads inside one function, exactly as real time
  may.
* `new Date(t).toISOString()` is embedded by `isoString t`, a concrete
  Gregorian-calendar formatter (civil-from-days algorithm), producing the
  same `YYYY-MM-DDTHH:MM:SS.mmmZ` text as the platform for the timestamps
  in range (years 1970..9999).
* A WHATWG `new URL(s)` parse is an oracle `parse : String -> Option ParsedUrl`;
  `ParsedUrl.base` stands for `origin + pathname` and `params` for the
  decoded `searchParams` pairs in order.  Percent-encoding performed by the
  platform serializer is abstracted away: parameter values are modelled in
  decoded form on both sides.
* JS string/number falsiness (`!url`, `!sessionId`, `!lastActivity`) is
  modelled explicitly (`none`/empty string/zero).
-/

/-- Event severity, `type BlipLevel = 'info' | 'warn' | 'error'`. -/
inductive BlipLevel where
  | info
  | warn
  | error
deriving DecidableEq, Repr

/-- Error taxonomy of `BlipLogsError.type`. -/
inductive ErrKind where
  | network
  | rate_limit
  | auth
  | validation
  | unknown
deriving DecidableEq, Repr

/-- A `BlipLogsError` as handed to `handleError` (the error channel).
`originalError` carries no information relevant to the claims and is dropped. -/
structure BlipError where
  kind : ErrKind
  message : String
  statusCode : Option Nat
deriving DecidableEq, Repr

/-- `BlipMetadata` is an open string-keyed map; the claims never inspect the
values, so the string-valued slice suffices. -/
abbrev BlipMetadata := List (String × String)

/-- `BlipContext`: every field is optional in the TS interface. -/
structure BlipContext where
  projectId : Option String
  url : Option String
  referrer : Option String
  userAgent : Option String
deriving DecidableEq, Repr

/-- The Event Payload built by `track`.  `timestamp` is the ISO string
produced by `new Date().toISOString()`. -/
structure BlipPayload where
  event : String
  level : BlipLevel
  metadata : Option BlipMetadata
  context : BlipContext
  timestamp : String
  session_id : Option String
  timestamp_ms : Option Nat
  anonymize_ip : Option Bool
deriving DecidableEq, Repr

/-- The body `send` actually serializes: the payload spread together with
`project_id` and (when the api key is truthy) `api_key`. -/
structure AuthedPayload where
  payload : BlipPayload
  project_id : Option String
  api_key : Option String
deriving DecidableEq, Repr

/-- Resolved privacy configuration (`Required<BlipPrivacyConfig>`). -/
structure PrivacyResolved where
  anonymizeIp : Bool
  collectUrl : Bool
  collectReferrer : Bool
  collectUserAgent : Bool
  collectSessionId : Bool
deriving DecidableEq, Repr

/-- Resolved bandwidth configuration (`Required<BlipBandwidthConfig>`);
resource types are plain tags. -/
structure BandwidthResolved where
  enabled : Bool
  batchInterval : Nat
  resourceTypes : List String
  maxBatchSize : Nat
  sanitizeUrls : Bool
deriving DecidableEq, Repr

/-- Instance state fixed at construction: `apiKey`, `projectId`, `debug`,
resolved privacy and bandwidth configuration. -/
structure Config where
  apiKey : Option String
  projectId : String
  debug : Bool
  privacy : PrivacyResolved
  bandwidth : BandwidthResolved
deriving DecidableEq, Repr

/-- The two `sessionStorage` keys the session tracker uses, as typed values:
`storedId` is the string under `blip_session_id` (none = key absent) and
`storedTs` the parsed integer under `blip_session_ts`. -/
structure SessionState where
  storedId : Option String
  storedTs : Option Nat
deriving DecidableEq, Repr

/-- Result of one `navigator.sendBeacon` call: queued, returned `false`
(blocked/too large), or threw. -/
inductive BeaconOutcome where
  | accepted
  | rejected
  | threw
deriving DecidableEq, Repr

/-- Eventual outcome of a dispatched `fetch` promise: resolves with an HTTP
status, or rejects with an error message (`''` models a missing message). -/
inductive FetchOutcome where
  | resolves (status : Nat)
  | rejects (message : String)
deriving DecidableEq, Repr

/-- A URL as the platform `URL` class exposes it to this code:
`base` is `origin + pathname`, `params` the `searchParams` pairs in order. -/
structure ParsedUrl where
  base : String
  params : List (String × String)
deriving DecidableEq, Repr

/-- The execution environment: clock and UUID oracles with read counters,
storage, browser capability flags, transport outcomes, and the URL parser. -/
structure Env where
  clock : Nat → Nat
  clockIdx : Nat
  uuids : Nat → String
  uuidIdx : Nat
  hasWindow : Bool
  storage : Option SessionState
  href : Option String
  referrer : String
  userAgent : String
  hasNavigator : Bool
  hasBeacon : Bool
  beaconOutcome : BeaconOutcome
  hasFetch : Bool
  fetchOutcome : FetchOutcome
  parse : String → Option ParsedUrl

/-! ## ISO-8601 timestamp formatting (`new Date(t).toISOString()`) -/

/-- Zero-pad a natural to two digits. -/
def pad2 (n : Nat) : String :=
  if n < 10 then "0" ++ toString n else toString n

/-- Zero-pad a natural to three digits. -/
def pad3 (n : Nat) : String :=
  if n < 10 then "00" ++ toString n
  else if n < 100 then "0" ++ toString n
  else toString n

/-- Zero-pad a natural to four digits. -/
def pad4 (n : Nat) : String :=
  if n < 10 then "000" ++ toString n
  else if n < 100 then "00" ++ toString n
  else if n < 1000 then "0" ++ toString n
  else toString n

/-- Proleptic-Gregorian civil date from days since 1970-01-01
(Hinnant's civil-from-days, specialised to non-negative days). -/
def civilFromDays (days : Nat) : Nat × Nat × Nat :=
  let z := days + 719468
  let era := z / 146097
  let doe := z % 146097
  let yoe := (doe - doe / 1460 + doe / 36524 - doe / 146096) / 365
  let y := yoe + era * 400
  let doy := doe - (365 * yoe + yoe / 4 - yoe / 100)
  let mp := (5 * doy + 2) / 153
  let d := doy - (153 * mp + 2) / 5 + 1
  let mo := if mp < 10 then mp + 3 else mp - 9
  (if mo ≤ 2 then y + 1 else y, mo, d)

/-- `new Date(t).toISOString()` for an epoch-millisecond value `t`. -/
def isoString (t : Nat) : String :=
  let ms := t % 1000
  let s := t / 1000
  let sod := s % 86400
  let (y, mo, d) := civilFromDays (s / 86400)
  pad4 y ++ "-" ++ pad2 mo ++ "-" ++ pad2 d ++ "T" ++
    pad2 (sod / 3600) ++ ":" ++ pad2 (sod % 3600 / 60) ++ ":" ++
    pad2 (sod % 60) ++ "." ++ pad3 ms ++ "Z"

/-! ## Session Tracker (`getSessionId`, lines 301-333) -/

/-- `SESSION_TIMEOUT = 30 * 60 * 1000`. -/
def SESSION_TIMEOUT_MS : Nat := 30 * 60 * 1000

/-- JS falsiness of the stored session id (`!sessionId`): absent or `''`. -/
def jsFalsyStr (s : Option String) : Bool :=
  match s with
  | none => true
  | some v => decide (v = "")

/-- JS falsiness of the parsed activity timestamp (`!lastActivity`):
absent or numerically zero. -/
def jsFalsyNat (n : Option Nat) : Bool :=
  match n with
  | none => true
  | some v => decide (v = 0)

/-- The regenerate condition
`!sessionId || !lastActivity || (now - lastActivity > SESSION_TIMEOUT)`,
with the subtraction on JS numbers (hence over `Int`). -/
def needsNewSession (now : Nat) (s : SessionState) : Bool :=
  jsFalsyStr s.storedId || jsFalsyNat s.storedTs ||
    decide (((now : Int) - ((s.storedTs.getD 0 : Nat) : Int)) > (SESSION_TIMEOUT_MS : Int))

/-- Core of `getSessionId` once storage is known available: `uuid` is the
value `crypto.randomUUID()` would produce on this call, `now` the
`Date.now()` reading.  Returns the id handed back and the storage after the
two `setItem` writes. -/
def getSessionId (uuid : String) (now : Nat) (s : SessionState) : String × SessionState :=
  if needsNewSession now s then
    (uuid, { storedId := some uuid, storedTs := some now })
  else
    (s.storedId.getD "", { s with storedTs := some now })

/-- Environment wrapper of `getSessionId`: the `typeof window`/
`typeof sessionStorage` probes and the try/catch (a throwing storage is
modelled as `storage = none`), consuming one clock reading and, on
regeneration, one UUID. -/
def getSessionIdEnv (env : Env) : Option String × Env :=
  if !env.hasWindow then (none, env)
  else
    match env.storage with
    | none => (none, env)
    | some st =>
      let now := env.clock env.clockIdx
      let uuid := env.uuids env.uuidIdx
      let r := getSessionId uuid now st
      (some r.1,
        { env with
          clockIdx := env.clockIdx + 1
          uuidIdx := env.uuidIdx + (if needsNewSession now st then 1 else 0)
          storage := some r.2 })

/-! ## URL Sanitizer (`SENSITIVE_PARAMS`, `sanitizeUrl`, lines 338-382) -/

/-- ASCII `toLowerCase` on one character (the classifier's patterns and the
sensitive-parameter names are all ASCII). -/
def lowerChar (c : Char) : Char :=
  if c.toNat ≥ 65 && c.toNat ≤ 90 then Char.ofNat (c.toNat + 32) else c

/-- ASCII `String.prototype.toLowerCase`. -/
def lowerStr (s : String) : String :=
  String.mk (s.toList.map lowerChar)

/-- The fixed sensitive-parameter list, verbatim from the source. -/
def SENSITIVE_PARAMS : List String :=
  ["token", "access_token", "refresh_token", "id_token",
   "apikey", "api_key", "api-key", "key",
   "password", "pwd", "pass", "secret",
   "auth", "authorization", "bearer",
   "session", "sessionid", "session_id",
   "code", "state", "nonce",
   "email", "phone", "ssn",
   "credit_card", "cc", "cvv", "card"]

/-- `sensitiveSet.has(key.toLowerCase())` with
`sensitiveSet = new Set(SENSITIVE_PARAMS.map(p => p.toLowerCase()))`. -/
def isSensitiveKey (k : String) : Bool :=
  (SENSITIVE_PARAMS.map lowerStr).contains (lowerStr k)

/-- `URLSearchParams.delete`-style removal of every pair with exactly key `k`
(used by the `set` semantics below). -/
def removeKey (ps : List (String × String)) (k : String) : List (String × String) :=
  match ps with
  | [] => []
  | (k0, v0) :: rest =>
    if k0 = k then removeKey rest k else (k0, v0) :: removeKey rest k

/-- `URLSearchParams.set(k, v)`: replace the value of the first pair whose
key is exactly `k` and drop any later pairs with that key; append if absent. -/
def setParam (ps : List (String × String)) (k v : String) : List (String × String) :=
  match ps with
  | [] => [(k, v)]
  | (k0, v0) :: rest =>
    if k0 = k then (k, v) :: removeKey rest k
    else (k0, v0) :: setParam rest k v

/-- `urlObj.toString()` for the modelled URL (percent-encoding abstracted). -/
def urlToString (p : ParsedUrl) : String :=
  if p.params.isEmpty then p.base
  else p.base ++ "?" ++
    String.intercalate "&" (p.params.map (fun kv => kv.1 ++ "=" ++ kv.2))

/-- `sanitizeUrl` (lines 352-382): the `!url` guard, the structured path
(collect sensitive keys in order, then `params.set(key, '[REDACTED]')` for
each), and the textual fallback when `new URL` throws (`parse` = `none`):
truncate at the first `?` and append `?[QUERY_REDACTED]`, else return the
input unchanged. -/
def sanitizeUrl (parse : String → Option ParsedUrl) (url : Option String) : Option String :=
  match url with
  | none => none
  | some u =>
    if u = "" then none
    else
      match parse u with
      | some p =>
        let toRedact := ((p.params.filter (fun kv => isSensitiveKey kv.1)).map (fun kv => kv.1))
        let params2 := toRedact.foldl (fun ps k => setParam ps k "[REDACTED]") p.params
        some (urlToString { p with params := params2 })
      | none =>
        if u.toList.contains '?' then
          some (String.mk (u.toList.takeWhile (fun c => c ≠ '?')) ++ "?[QUERY_REDACTED]")
        else
          some u

/-- `sanitizeResourceUrl` (lines 781-793): standard sanitization, `'[UNKNOWN]'`
when that yields nothing, then a second parse keeping only origin+pathname. -/
def sanitizeResourceUrl (parse : String → Option ParsedUrl) (url : String) : String :=
  match sanitizeUrl parse (some url) with
  | none => "[UNKNOWN]"
  | some s =>
    match parse s with
    | some p => p.base
    | none => s

/-! ## User-Agent Classifier (`BOT_PATTERNS`, `parseUserAgent`, lines 387-500)

Every regular expression the classifier uses is a case-insensitive
alternation of literals (plus, for versions, a `(\d+[\d.]*)` capture after a
separator, and two `android` patterns with an ordering constraint on
`mobile`).  The matchers below implement exactly that fragment over
`List Char`; `\s` is modelled as the space character and the literal dots in
the Windows NT patterns as `'.'`. -/

/-- `chStarts pat cs`: `cs` begins with `pat`. -/
def chStarts : List Char → List Char → Bool
  | [], _ => true
  | _ :: _, [] => false
  | p :: ps, c :: cs => p == c && chStarts ps cs

/-- `chHasSub pat cs`: `pat` occurs contiguously in `cs`. -/
def chHasSub (pat : List Char) : List Char → Bool
  | [] => pat.isEmpty
  | c :: cs => chStarts pat (c :: cs) || chHasSub pat cs

/-- Case-insensitive literal containment, the meaning of `/lit/i.test(ua)`. -/
def uaHas (ua : String) (lit : String) : Bool :=
  chHasSub lit.toList (lowerStr ua).toList

/-- `/android(?!.*mobile)/i`: some occurrence of `android` with no later
occurrence of `mobile`. -/
def androidNotMobile : List Char → Bool
  | [] => false
  | c :: rest =>
    (chStarts "android".toList (c :: rest) &&
      !(chHasSub "mobile".toList ((c :: rest).drop 7))) || androidNotMobile rest

/-- `/a.*b/i`-style ordering: an occurrence of `a` followed later by `b`. -/
def chSeq (a b : List Char) : List Char → Bool
  | [] => false
  | c :: rest =>
    (chStarts a (c :: rest) && chHasSub b ((c :: rest).drop a.length)) || chSeq a b rest

/-- `BOT_PATTERNS` (lines 387-415): each pattern is the list of its literal
alternatives, paired with the bot name, in source order; the generic
`crawl|spider|bot|scrape` entry is last. -/
def BOT_PATTERNS : List (List String × String) :=
  [(["googlebot"], "Googlebot"),
   (["bingbot"], "Bingbot"),
   (["slurp"], "Yahoo Slurp"),
   (["duckduckbot"], "DuckDuckBot"),
   (["baiduspider"], "Baiduspider"),
   (["yandexbot"], "YandexBot"),
   (["facebot", "facebookexternalhit"], "Facebook Bot"),
   (["twitterbot"], "Twitter Bot"),
   (["linkedinbot"], "LinkedIn Bot"),
   (["slackbot"], "Slackbot"),
   (["telegrambot"], "Telegram Bot"),
   (["discordbot"], "Discord Bot"),
   (["whatsapp"], "WhatsApp"),
   (["applebot"], "Applebot"),
   (["semrushbot"], "SEMrush Bot"),
   (["ahrefsbot"], "Ahrefs Bot"),
   (["mj12bot"], "Majestic Bot"),
   (["dotbot"], "DotBot"),
   (["petalbot"], "PetalBot"),
   (["bytespider"], "ByteSpider"),
   (["gptbot"], "GPTBot"),
   (["claudebot"], "ClaudeBot"),
   (["headless"], "Headless Browser"),
   (["phantomjs"], "PhantomJS"),
   (["lighthouse"], "Lighthouse"),
   (["pagespeed"], "PageSpeed Insights"),
   (["crawl", "spider", "bot", "scrape"], "Generic Bot")]

/-- One bot pattern matches: any of its literal alternatives occurs. -/
def botMatches (ua : String) (lits : List String) : Bool :=
  lits.any (fun l => uaHas ua l)

/-- The bot loop (lines 433-440): first matching pattern's name, if any. -/
def findBot (ua : String) : Option String :=
  (BOT_PATTERNS.find? (fun e => botMatches ua e.1)).map (fun e => e.2)

/-- The maximal `[\d.]*` run after a leading digit, i.e. a `(\d+[\d.]*)`
capture at this position. -/
def digitRun (cs : List Char) : List Char :=
  cs.takeWhile (fun c => c.isDigit || c = '.')

/-- Try, at the current position, each alternative literal (separator baked
in); on a hit require a digit immediately after and capture `(\d+[\d.]*)`. -/
def verTryHere (alts : List String) (cs : List Char) : Option String :=
  alts.findSome? (fun a =>
    if chStarts a.toList cs then
      match cs.drop a.toList.length with
      | [] => none
      | d :: rest => if d.isDigit then some (String.mk (digitRun (d :: rest))) else none
    else none)

/-- Scan left to right for the first position where some alternative plus a
version capture matches — the regex-engine search order. -/
def verSearch (alts : List String) : List Char → Option String
  | [] => none
  | c :: cs =>
    match verTryHere alts (c :: cs) with
    | some v => some v
    | none => verSearch alts cs

/-- `ua.match(pattern)?.[1] || ''` for a version-capturing pattern. -/
def matchVersion (alts : List String) (ua : String) : String :=
  (verSearch alts (lowerStr ua).toList).getD ""

/-- Browser chain (lines 443-467): Edge → Opera → Chrome family → Firefox
family → Safari-not-Chrome → IE/Trident; yields name and captured version. -/
def detectBrowser (ua : String) : String × String :=
  if uaHas ua "edg" then
    ("Edge", matchVersion ["edge/", "edg/"] ua)
  else if uaHas ua "opr" || uaHas ua "opera" then
    ("Opera", matchVersion ["opr/", "opr ", "opera/", "opera "] ua)
  else if uaHas ua "chrome" || uaHas ua "chromium" || uaHas ua "crios" then
    ("Chrome", matchVersion ["chrome/", "chromium/", "crios/"] ua)
  else if uaHas ua "firefox" || uaHas ua "fxios" then
    ("Firefox", matchVersion ["firefox/", "fxios/"] ua)
  else if uaHas ua "safari" && !(uaHas ua "chrome") then
    ("Safari", matchVersion ["version/"] ua)
  else if uaHas ua "msie" || uaHas ua "trident" then
    ("Internet Explorer", matchVersion ["msie ", "rv:"] ua)
  else
    ("Unknown", "")

/-- OS chain (lines 470-488), with the Windows NT sub-cases. -/
def detectOS (ua : String) : String :=
  if uaHas ua "windows" then
    if uaHas ua "windows nt 10" then "Windows 10/11"
    else if uaHas ua "windows nt 6.3" then "Windows 8.1"
    else if uaHas ua "windows nt 6.2" then "Windows 8"
    else if uaHas ua "windows nt 6.1" then "Windows 7"
    else "Windows"
  else if uaHas ua "macintosh" || uaHas ua "mac os x" then "macOS"
  else if uaHas ua "iphone" then "iOS"
  else if uaHas ua "ipad" then "iPadOS"
  else if uaHas ua "android" then "Android"
  else if uaHas ua "linux" then "Linux"
  else if uaHas ua "cros" then "Chrome OS"
  else "Unknown"

/-- `ParsedUserAgent.deviceType`. -/
inductive DeviceType where
  | desktop
  | mobile
  | tablet
  | unknown
deriving DecidableEq, Repr

/-- Device chain (lines 491-497): mobile group → tablet group → desktop
group, each a literal alternation (plus the two `android` special forms). -/
def detectDevice (ua : String) : DeviceType :=
  if uaHas ua "mobile" || uaHas ua "iphone" || uaHas ua "ipod" ||
      chSeq "android".toList "mobile".toList (lowerStr ua).toList ||
      uaHas ua "webos" || uaHas ua "blackberry" || uaHas ua "opera mini" ||
      uaHas ua "opera mobi" || uaHas ua "iemobile" then
    DeviceType.mobile
  else if uaHas ua "tablet" || uaHas ua "ipad" ||
      androidNotMobile (lowerStr ua).toList || uaHas ua "kindle" || uaHas ua "silk" then
    DeviceType.tablet
  else if uaHas ua "windows" || uaHas ua "macintosh" || uaHas ua "linux" ||
      uaHas ua "cros" then
    DeviceType.desktop
  else
    DeviceType.unknown

/-- `ParsedUserAgent`. -/
structure ParsedUserAgent where
  browser : String
  browserVersion : String
  os : String
  isBot : Bool
  botName : Option String
  deviceType : DeviceType
  raw : String
deriving DecidableEq, Repr

/-- `parseUserAgent` (lines 420-500): defaults, the `!ua` early return, the
bot short-circuit, otherwise the three independent detection passes. -/
def parseUserAgent (ua : String) : ParsedUserAgent :=
  if ua = "" then
    { browser := "Unknown", browserVersion := "", os := "Unknown",
      isBot := false, botName := none, deviceType := DeviceType.unknown, raw := ua }
  else
    match findBot ua with
    | some name =>
      { browser := name, browserVersion := "", os := "Unknown",
        isBot := true, botName := some name, deviceType := DeviceType.unknown, raw := ua }
    | none =>
      let b := detectBrowser ua
      { browser := b.1, browserVersion := b.2, os := detectOS ua,
        isBot := false, botName := none, deviceType := detectDevice ua, raw := ua }

/-! ## Context Builder (`getContext`, lines 506-521) -/

/-- `getContext`: the `{projectId}` base, and in a window environment the
privacy-gated sanitized URL, sanitized referrer (`|| undefined` collapses an
empty result), and raw user agent. -/
def getContext (cfg : Config) (env : Env) : BlipContext :=
  if !env.hasWindow then
    { projectId := some cfg.projectId, url := none, referrer := none, userAgent := none }
  else
    { projectId := some cfg.projectId
      url := if cfg.privacy.collectUrl then sanitizeUrl env.parse env.href else none
      referrer :=
        if cfg.privacy.collectReferrer then
          match sanitizeUrl env.parse (some env.referrer) with
          | none => none
          | some r => if r = "" then none else some r
        else none
      userAgent := if cfg.privacy.collectUserAgent then some env.userAgent else none }

/-! ## Transport (`send`, `sendWithFetch`, lines 579-689) -/

/-- Which mechanism a send attempt actually left through. -/
inductive Channel where
  | beacon
  | fetch
deriving DecidableEq, Repr

/-- Observable outcome of one `send`: the boolean returned to the caller,
the channel the attempt was dispatched on (if any), the errors reported
synchronously and the errors the detached fetch continuation will report,
plus the serialized body (payload with authentication spread in). -/
structure SendOutcome where
  ret : Bool
  channel : Option Channel
  syncErrors : List BlipError
  asyncErrors : List BlipError
  body : AuthedPayload
deriving DecidableEq, Repr

/-- `payloadWithAuth` (lines 583-587): spread `project_id`, and `api_key`
only when the key is truthy. -/
def withAuth (cfg : Config) (p : BlipPayload) : AuthedPayload :=
  { payload := p
    project_id := some cfg.projectId
    api_key :=
      match cfg.apiKey with
      | none => none
      | some k => if k = "" then none else some k }

/-- Status classification in the fetch `.then` handler (lines 652-671):
429 → rate_limit, 401 → auth, 400 → validation, otherwise unknown with the
default `HTTP <status>` message; `statusCode` always carried. -/
def classifyStatus (st : Nat) : BlipError :=
  if st = 429 then
    { kind := ErrKind.rate_limit,
      message := "Monthly event limit exceeded. Upgrade your plan to continue.",
      statusCode := some st }
  else if st = 401 then
    { kind := ErrKind.auth, message := "Invalid API key", statusCode := some st }
  else if st = 400 then
    { kind := ErrKind.validation, message := "Invalid request payload", statusCode := some st }
  else
    { kind := ErrKind.unknown, message := "HTTP " ++ toString st, statusCode := some st }

/-- `response.ok`: status in the 2xx range. -/
def httpOk (st : Nat) : Bool :=
  decide (200 ≤ st) && decide (st ≤ 299)

/-- `sendWithFetch` (lines 635-689): when `fetch` exists, dispatch and
return `true`; the detached continuation classifies a non-ok response or
reports a network error on rejection.  When `fetch` is missing, report an
`unknown` error synchronously and return `false`. -/
def sendWithFetch (env : Env) (body : AuthedPayload) : SendOutcome :=
  if env.hasFetch then
    { ret := true
      channel := some Channel.fetch
      syncErrors := []
      asyncErrors :=
        match env.fetchOutcome with
        | FetchOutcome.resolves st => if httpOk st then [] else [classifyStatus st]
        | FetchOutcome.rejects m =>
          [{ kind := ErrKind.network,
             message := if m = "" then "Network request failed" else m,
             statusCode := none }]
      body := body }
  else
    { ret := false
      channel := none
      syncErrors :=
        [{ kind := ErrKind.unknown,
           message := "No suitable transport available (fetch not defined)",
           statusCode := none }]
      asyncErrors := []
      body := body }

/-- `send` (lines 579-611): beacon primary when `navigator.sendBeacon`
exists — return `true` if it queues, fall back to fetch if it returns
`false` or throws — otherwise straight to the fetch fallback. -/
def send (cfg : Config) (env : Env) (p : BlipPayload) : SendOutcome :=
  let bp := withAuth cfg p
  if env.hasNavigator && env.hasBeacon then
    match env.beaconOutcome with
    | BeaconOutcome.accepted =>
      { ret := true, channel := some Channel.beacon,
        syncErrors := [], asyncErrors := [], body := bp }
    | BeaconOutcome.rejected => sendWithFetch env bp
    | BeaconOutcome.threw => sendWithFetch env bp
  else
    sendWithFetch env bp

/-- The beacon mechanism exists: `typeof navigator !== 'undefined' &&
navigator.sendBeacon`. -/
def beaconExists (env : Env) : Bool :=
  env.hasNavigator && env.hasBeacon

/-- The fetch mechanism exists: `typeof fetch !== 'undefined'`. -/
def fetchExists (env : Env) : Bool :=
  env.hasFetch

/-! ## Event Formatter (`track`, lines 531-552) -/

/-- Observable outcome of one `track` call: the returned boolean, whether
the `event name is required` warning was emitted, the payload handed to
`send` (none when no transport call was made), the transport outcome, and
the environment afterwards. -/
structure TrackOutcome where
  ret : Bool
  warned : Bool
  sentToTransport : Option BlipPayload
  sendOut : Option SendOutcome
  env : Env

/-- `track` (lines 531-552): reject an empty event with a warning and no
transport call; otherwise read `Date.now()`, consult the session tracker if
enabled, build the context, read the clock again for
`new Date().toISOString()`, assemble the payload (with `anonymize_ip` only
when the flag is true) and delegate to `send`. -/
def track (cfg : Config) (env : Env) (event : String) (metadata : Option BlipMetadata)
    (level : BlipLevel) : TrackOutcome :=
  if event = "" then
    { ret := false, warned := true, sentToTransport := none, sendOut := none, env := env }
  else
    let now := env.clock env.clockIdx
    let env1 : Env := { env with clockIdx := env.clockIdx + 1 }
    let sidEnv :=
      if cfg.privacy.collectSessionId then getSessionIdEnv env1 else (none, env1)
    let env2 := sidEnv.2
    let ctx := getContext cfg env2
    let iso := env2.clock env2.clockIdx
    let env3 : Env := { env2 with clockIdx := env2.clockIdx + 1 }
    let p : BlipPayload :=
      { event := event
        level := level
        metadata := metadata
        context := ctx
        timestamp := isoString iso
        session_id := sidEnv.1
        timestamp_ms := some now
        anonymize_ip := if cfg.privacy.anonymizeIp then some true else none }
    let so := send cfg env3 p
    { ret := so.ret, warned := false, sentToTransport := some p,
      sendOut := some so, env := env3 }

/-! ## Bandwidth Batcher (lines 746-870) -/

/-- `BandwidthResourceEntry`: one normalized buffered sample. -/
structure BandwidthResourceEntry where
  url : String
  resourceType : String
  transferSize : Nat
  encodedBodySize : Nat
  decodedBodySize : Nat
  duration : Nat
  startTime : Nat
deriving DecidableEq, Repr

/-- `BandwidthPayload`: one flush unit as assembled by `flushBandwidthBatch`. -/
structure BandwidthPayload where
  resources : List BandwidthResourceEntry
  session_id : Option String
  timestamp_ms : Nat
  api_key : Option String
  project_id : Option String
  context : BlipContext
  totalTransferSize : Nat
  resourceCount : Nat
  userAgent : Option ParsedUserAgent
deriving DecidableEq, Repr

/-- Observable outcome of one `sendBandwidth`. -/
structure BWSendOutcome where
  ret : Bool
  channel : Option Channel
  syncErrors : List BlipError
  asyncErrors : List BlipError
  body : BandwidthPayload
deriving DecidableEq, Repr

/-- The fetch half of `sendBandwidth` (lines 845-869): dispatch and return
`true` when `fetch` exists — only a rejection is reported (as `network`;
resolved responses are never inspected) — otherwise return `false` with no
error reported at all. -/
def bandwidthFetchFallback (env : Env) (p : BandwidthPayload) : BWSendOutcome :=
  if env.hasFetch then
    { ret := true
      channel := some Channel.fetch
      syncErrors := []
      asyncErrors :=
        match env.fetchOutcome with
        | FetchOutcome.resolves _ => []
        | FetchOutcome.rejects m =>
          [{ kind := ErrKind.network,
             message := if m = "" then "Bandwidth tracking request failed" else m,
             statusCode := none }]
      body := p }
  else
    { ret := false, channel := none, syncErrors := [], asyncErrors := [], body := p }

/-- `sendBandwidth` (lines 829-870): beacon primary — early `true` only when
it queues; on a `false` return or a throw, fall through to the fetch half. -/
def sendBandwidth (env : Env) (p : BandwidthPayload) : BWSendOutcome :=
  if env.hasNavigator && env.hasBeacon then
    match env.beaconOutcome with
    | BeaconOutcome.accepted =>
      { ret := true, channel := some Channel.beacon,
        syncErrors := [], asyncErrors := [], body := p }
    | BeaconOutcome.rejected => bandwidthFetchFallback env p
    | BeaconOutcome.threw => bandwidthFetchFallback env p
  else
    bandwidthFetchFallback env p

/-- Observable outcome of one `flushBandwidthBatch`. -/
structure FlushOutcome where
  payload : Option BandwidthPayload
  buffer : List BandwidthResourceEntry
  env : Env
  sendOut : Option BWSendOutcome

/-- `flushBandwidthBatch` (lines 798-824): no-op on an empty buffer;
otherwise `splice(0, maxBatchSize)` (modelled as take/drop), aggregate
transfer size, optional parsed user agent, session id and `Date.now()`
reads, payload assembly and `sendBandwidth`. -/
def flushBandwidthBatch (cfg : Config) (env : Env)
    (buf : List BandwidthResourceEntry) : FlushOutcome :=
  if buf.isEmpty then
    { payload := none, buffer := buf, env := env, sendOut := none }
  else
    let resources := buf.take cfg.bandwidth.maxBatchSize
    let rest := buf.drop cfg.bandwidth.maxBatchSize
    let total := resources.foldl (fun s r => s + r.transferSize) 0
    let rawUA := if env.hasNavigator then env.userAgent else ""
    let parsedUA :=
      if cfg.privacy.collectUserAgent && !(rawUA = "") then some (parseUserAgent rawUA)
      else none
    let sidEnv :=
      if cfg.privacy.collectSessionId then getSessionIdEnv env else (none, env)
    let env1 := sidEnv.2
    let now := env1.clock env1.clockIdx
    let env2 : Env := { env1 with clockIdx := env1.clockIdx + 1 }
    let p : BandwidthPayload :=
      { resources := resources
        session_id := sidEnv.1
        timestamp_ms := now
        api_key :=
          match cfg.apiKey with
          | none => none
          | some k => if k = "" then none else some k
        project_id := some cfg.projectId
        context := getContext cfg env2
        totalTransferSize := total
        resourceCount := resources.length
        userAgent := parsedUA }
    let so := sendBandwidth env2 p
    { payload := some p, buffer := rest, env := env2, sendOut := some so }

/-- A `PerformanceResourceTiming` entry as `recordResourceTiming` reads it:
`name` is the resource URL; the numeric fields are absent when the platform
omits them (`|| 0` in the source). -/
structure PerfEntry where
  name : String
  initiatorType : String
  transferSize : Option Nat
  encodedBodySize : Option Nat
  decodedBodySize : Option Nat
  duration : Option Nat
  startTime : Option Nat
deriving DecidableEq, Repr

/-- Observable outcome of one `recordResourceTiming`. -/
structure RecordOutcome where
  buffer : List BandwidthResourceEntry
  env : Env
  flushed : Option BandwidthPayload
  sendOut : Option BWSendOutcome

/-- Normalization of one observed entry (lines 747-768): the initiator-type
default, the configured URL sanitization, and the `|| 0` numeric defaults. -/
def normalizeEntry (cfg : Config) (env : Env) (e : PerfEntry) : BandwidthResourceEntry :=
  { url := if cfg.bandwidth.sanitizeUrls then sanitizeResourceUrl env.parse e.name else e.name
    resourceType := if e.initiatorType = "" then "other" else e.initiatorType
    transferSize := e.transferSize.getD 0
    encodedBodySize := e.encodedBodySize.getD 0
    decodedBodySize := e.decodedBodySize.getD 0
    duration := e.duration.getD 0
    startTime := e.startTime.getD 0 }

/-- `recordResourceTiming` (lines 746-776): default the initiator type to
`'other'`, drop the entry when a non-empty allow-list excludes it, append
the normalized entry, and flush when the buffer has reached `maxBatchSize`. -/
def recordResourceTiming (cfg : Config) (env : Env)
    (buf : List BandwidthResourceEntry) (e : PerfEntry) : RecordOutcome :=
  if !cfg.bandwidth.resourceTypes.isEmpty &&
      !(cfg.bandwidth.resourceTypes.contains
        (if e.initiatorType = "" then "other" else e.initiatorType)) then
    { buffer := buf, env := env, flushed := none, sendOut := none }
  else
    if cfg.bandwidth.maxBatchSize ≤ (buf ++ [normalizeEntry cfg env e]).length then
      { buffer := (flushBandwidthBatch cfg env (buf ++ [normalizeEntry cfg env e])).buffer
        env := (flushBandwidthBatch cfg env (buf ++ [normalizeEntry cfg env e])).env
        flushed := (flushBandwidthBatch cfg env (buf ++ [normalizeEntry cfg env e])).payload
        sendOut := (flushBandwidthBatch cfg env (buf ++ [normalizeEntry cfg env e])).sendOut }
    else
      { buffer := buf ++ [normalizeEntry cfg env e], env := env,
        flushed := none, sendOut := none }

/-- Accumulated state of a run of recordings: current buffer and
environment, plus every batch flushed so far in order. -/
structure BatchRun where
  buffer : List BandwidthResourceEntry
  env : Env
  flushed : List BandwidthPayload

/-- Feed a sequence of resource-timing observations through
`recordResourceTiming`, collecting every flushed batch. -/
def recordAll (cfg : Config) : List PerfEntry → BatchRun → BatchRun
  | [], st => st
  | e :: es, st =>
    let r := recordResourceTiming cfg st.env st.buffer e
    recordAll cfg es
      { buffer := r.buffer, env := r.env,
        flushed := st.flushed ++ (match r.flushed with | some p => [p] | none => []) }

/-! ## Concrete fixtures for witnesses and counterexamples -/

/-- A default browser-less environment: clock ticking one millisecond per
read, no window/storage, fetch available. -/
def envTick : Env :=
  { clock := fun i => 1000 + i, clockIdx := 0,
    uuids := fun _ => "11111111-1111-4111-8111-111111111111", uuidIdx := 0,
    hasWindow := false, storage := none, href := none, referrer := "",
    userAgent := "", hasNavigator := false, hasBeacon := false,
    beaconOutcome := BeaconOutcome.accepted, hasFetch := true,
    fetchOutcome := FetchOutcome.resolves 200, parse := fun _ => none }

/-- A default configuration with every privacy default (`?? true`/`false`)
as the constructor resolves them. -/
def cfgA : Config :=
  { apiKey := some "key-1", projectId := "p1", debug := false,
    privacy := { anonymizeIp := false, collectUrl := true, collectReferrer := true,
                 collectUserAgent := true, collectSessionId := true },
    bandwidth := { enabled := false, batchInterval := 30000, resourceTypes := [],
                   maxBatchSize := 100, sanitizeUrls := true } }

/-- A configuration with bandwidth tracking capped at two entries per batch. -/
def cfgB : Config :=
  { cfgA with
    bandwidth := { enabled := true, batchInterval := 30000, resourceTypes := [],
                   maxBatchSize := 2, sanitizeUrls := false } }

/-- Sample buffered resource entries. -/
def bwr1 : BandwidthResourceEntry :=
  { url := "https://cdn/a.js", resourceType := "script", transferSize := 100,
    encodedBodySize := 90, decodedBodySize := 300, duration := 12, startTime := 1 }

/-- Second sample entry. -/
def bwr2 : BandwidthResourceEntry :=
  { url := "https://cdn/b.png", resourceType := "img", transferSize := 2000,
    encodedBodySize := 1900, decodedBodySize := 2000, duration := 30, startTime := 2 }

/-- Third sample entry. -/
def bwr3 : BandwidthResourceEntry :=
  { url := "https://cdn/c.css", resourceType := "link", transferSize := 50,
    encodedBodySize := 40, decodedBodySize := 120, duration := 5, startTime := 3 }

/-! ## C3 — flush drains exactly the maxBatchSize-prefix -/

/-- C3 (confirmed): with more than `maxBatchSize` buffered entries, a flush
takes exactly the first `maxBatchSize` entries, in insertion order, into the
batch (`resources` and `resourceCount` agree with that prefix), leaves
exactly the remaining suffix buffered in order, and discards nothing: the
old buffer is the flushed prefix followed by the retained suffix. -/
theorem flushBandwidthBatch_drains_front (cfg : Config) (env : Env)
    (buf : List BandwidthResourceEntry)
    (h : cfg.bandwidth.maxBatchSize < buf.length) :
    ((flushBandwidthBatch cfg env buf).payload.map fun p => p.resources) =
        some (buf.take cfg.bandwidth.maxBatchSize) ∧
    ((flushBandwidthBatch cfg env buf).payload.map fun p => p.resources.length) =
        some cfg.bandwidth.maxBatchSize ∧
    ((flushBandwidthBatch cfg env buf).payload.map fun p => p.resourceCount) =
        some cfg.bandwidth.maxBatchSize ∧
    (flushBandwidthBatch cfg env buf).buffer = buf.drop cfg.bandwidth.maxBatchSize ∧
    buf = buf.take cfg.bandwidth.maxBatchSize ++ (flushBandwidthBatch cfg env buf).buffer := by
  have hne : buf.isEmpty = false := by
    cases buf with
    | nil => simp at h
    | cons a l => rfl
  refine ⟨?_, ?_, ?_, ?_, ?_⟩ <;>
    simp [flushBandwidthBatch, hne, List.length_take, Nat.min_eq_left (Nat.le_of_lt h)]

/-- Witness for C3 at a three-entry buffer and a cap of two. -/
theorem flushBandwidthBatch_drains_front_w :
    ((flushBandwidthBatch cfgB envTick [bwr1, bwr2, bwr3]).payload.map
        fun p => p.resources) = some [bwr1, bwr2] ∧
    (flushBandwidthBatch cfgB envTick [bwr1, bwr2, bwr3]).buffer = [bwr3] := by
  have h := flushBandwidthBatch_drains_front cfgB envTick [bwr1, bwr2, bwr3] (by decide)
  exact ⟨h.1, h.2.2.2.1⟩

/-! ## C5 — sensitive query parameters are redacted -/

/-- C5 (confirmed): for any key `k` in the sensitive set (matched
case-insensitively) and any parseable URL whose query is `k=v&safe=1`, the
sanitizer returns the same URL with `k`'s value replaced by `[REDACTED]`
and both the base (origin+path) and the non-sensitive `safe=1` untouched. -/
theorem sanitizeUrl_redacts_sensitive (parse : String → Option ParsedUrl)
    (u base k v : String) (hk : isSensitiveKey k = true) (hu : u ≠ "")
    (hp : parse u = some { base := base, params := [(k, v), ("safe", "1")] }) :
    sanitizeUrl parse (some u) =
      some (urlToString { base := base, params := [(k, "[REDACTED]"), ("safe", "1")] }) := by
  have hsafe : isSensitiveKey "safe" = false := by decide
  have hks : "safe" ≠ k := by
    intro hE
    rw [← hE] at hk
    rw [hk] at hsafe
    exact Bool.noConfusion hsafe
  simp [sanitizeUrl, hu, hp, hk, hsafe, setParam, removeKey, hks]

/-- A concrete parse oracle for the C5 witness URL. -/
def parseSens : String → Option ParsedUrl := fun s =>
  if s = "https://x/y?Token=secret&safe=1" then
    some { base := "https://x/y", params := [("Token", "secret"), ("safe", "1")] }
  else none

/-- Witness for C5: the `token` entry of the sensitive set, matched
case-insensitively against the key `Token`. -/
theorem sanitizeUrl_redacts_sensitive_w :
    sanitizeUrl parseSens (some "https://x/y?Token=secret&safe=1") =
      some "https://x/y?Token=[REDACTED]&safe=1" := by
  have h := sanitizeUrl_redacts_sensitive parseSens "https://x/y?Token=secret&safe=1"
    "https://x/y" "Token" "secret" (by decide) (by decide) rfl
  simpa [urlToString] using h

/-! ## C7 — textual fallback on parse failure -/

/-- C7 (confirmed): absent or empty input yields `none`; on a string the
platform URL parser rejects, the sanitizer truncates before the first `?`
and appends the `?[QUERY_REDACTED]` marker, and returns a `?`-free string
unchanged. -/
theorem sanitizeUrl_fallback (parse : String → Option ParsedUrl) (u : String) :
    sanitizeUrl parse none = none ∧
    sanitizeUrl parse (some "") = none ∧
    (parse u = none → u ≠ "" →
      ((u.toList.contains '?' = true →
          sanitizeUrl parse (some u) =
            some (String.mk (u.toList.takeWhile (fun c => c ≠ '?')) ++ "?[QUERY_REDACTED]")) ∧
       (u.toList.contains '?' = false → sanitizeUrl parse (some u) = some u))) := by
  refine ⟨rfl, rfl, fun hp hu => ⟨fun hq => ?_, fun hq => ?_⟩⟩ <;>
    simp [sanitizeUrl, hu, hp, hq]
  · intro hnot
    exact absurd (by simpa using hq) hnot
  · intro hmem
    exact absurd hmem (by simpa using hq)

/-- Witness for C7 on both fallback shapes. -/
theorem sanitizeUrl_fallback_w :
    sanitizeUrl (fun _ => none) (some "ht!tp bad?x=1&token=t") =
      some "ht!tp bad?[QUERY_REDACTED]" ∧
    sanitizeUrl (fun _ => none) (some "no question mark") = some "no question mark" := by
  have h := sanitizeUrl_fallback (fun _ => none) "ht!tp bad?x=1&token=t"
  have h2 := sanitizeUrl_fallback (fun _ => none) "no question mark"
  exact ⟨by simpa using (h.2.2 rfl (by decide)).1 (by decide),
         (h2.2.2 rfl (by decide)).2 (by decide)⟩

/-! ## C6 — bot detection short-circuits the classifier -/

/-- C6 (confirmed): whenever the user-agent string matches some bot pattern,
`parseUserAgent` returns `isBot = true`, `botName` the name of the first
matching pattern in the ordered list (`findBot`), `browser` that same name,
and the browser/OS/device fields still at their defaults — no further
detection ran — no matter what browser-looking substrings the string also
contains. -/
theorem parseUserAgent_bot_short_circuit (ua name : String)
    (h : findBot ua = some name) :
    parseUserAgent ua =
      { browser := name, browserVersion := "", os := "Unknown",
        isBot := true, botName := some name,
        deviceType := DeviceType.unknown, raw := ua } := by
  have h0 : findBot "" = none := by decide
  by_cases he : ua = ""
  · rw [he] at h
    rw [h0] at h
    exact Option.noConfusion h
  · simp [parseUserAgent, he, h]

/-- Witness for C6: a UA carrying both a bot marker and Chrome/Safari
markers; the first matching pattern is `googlebot`, and the generic
`bot` catch-all does not preempt it. -/
theorem parseUserAgent_bot_short_circuit_w :
    parseUserAgent "Googlebot/2.1 Chrome/119 Safari/537" =
      { browser := "Googlebot", browserVersion := "", os := "Unknown",
        isBot := true, botName := some "Googlebot",
        deviceType := DeviceType.unknown, raw := "Googlebot/2.1 Chrome/119 Safari/537" } :=
  parseUserAgent_bot_short_circuit "Googlebot/2.1 Chrome/119 Safari/537" "Googlebot"
    (by decide)

/-! ## C4 — session reuse within the window, rotation after it -/

/-- Reuse step: when the regenerate condition is false, the stored id is
returned and kept. -/
theorem getSessionId_reuse (u : String) (n : Nat) (s : SessionState)
    (h : needsNewSession n s = false) :
    (getSessionId u n s).1 = s.storedId.getD "" ∧
    (getSessionId u n s).2.storedId = s.storedId := by
  simp [getSessionId, h]

/-- Fresh step: when the regenerate condition holds, the uuid is returned
and both keys overwritten. -/
theorem getSessionId_fresh (u : String) (n : Nat) (s : SessionState)
    (h : needsNewSession n s = true) :
    getSessionId u n s = (u, { storedId := some u, storedTs := some n }) := by
  simp [getSessionId, h]

/-- After any `getSessionId` call with a non-empty fresh-uuid candidate, the
storage holds exactly the returned id, that id is non-empty, and the
timestamp key holds the call's `now`. -/
theorem getSessionId_post (u : String) (n : Nat) (s : SessionState) (hu : u ≠ "") :
    (getSessionId u n s).2.storedId = some (getSessionId u n s).1 ∧
    (getSessionId u n s).1 ≠ "" ∧
    (getSessionId u n s).2.storedTs = some n := by
  by_cases hc : needsNewSession n s = true
  · simp [getSessionId, hc, hu]
  · rw [Bool.not_eq_true] at hc
    have hcopy := hc
    unfold needsNewSession at hcopy
    simp only [Bool.or_eq_false_iff] at hcopy
    obtain h1 := hcopy.1.1
    cases hsi : s.storedId with
    | none => rw [hsi] at h1; simp [jsFalsyStr] at h1
    | some x =>
      rw [hsi] at h1
      have hx : x ≠ "" := by simpa [jsFalsyStr] using h1
      simp [getSessionId, hc, hsi, hx]

/-- C4 (confirmed): starting from any storage state, after a first
`getSessionId` call (non-empty uuid, positive clock), a second call whose
clock reading is within the 30-minute timeout of the first returns the very
same id; a second call strictly beyond the timeout returns the freshly
generated uuid, different from the stored id, and stores it; and every call
whatsoever persists its own `now` under the timestamp key (sliding-window
expiry). -/
theorem getSessionId_sliding_window (s : SessionState) (u1 u2 : String) (n1 n2 : Nat)
    (hu1 : u1 ≠ "") (hn1 : 0 < n1) :
    ((((n2 : Int) - (n1 : Int)) ≤ (SESSION_TIMEOUT_MS : Int)) →
      (getSessionId u2 n2 (getSessionId u1 n1 s).2).1 = (getSessionId u1 n1 s).1) ∧
    ((((n2 : Int) - (n1 : Int)) > (SESSION_TIMEOUT_MS : Int)) →
      u2 ≠ (getSessionId u1 n1 s).1 →
      ((getSessionId u2 n2 (getSessionId u1 n1 s).2).1 = u2 ∧
       (getSessionId u2 n2 (getSessionId u1 n1 s).2).1 ≠ (getSessionId u1 n1 s).1 ∧
       (getSessionId u2 n2 (getSessionId u1 n1 s).2).2.storedId = some u2)) ∧
    (∀ (u : String) (n : Nat) (s' : SessionState),
      (getSessionId u n s').2.storedTs = some n) := by
  obtain ⟨hid, hne, hts⟩ := getSessionId_post u1 n1 s hu1
  have hNe0 : n1 ≠ 0 := Nat.pos_iff_ne_zero.mp hn1
  refine ⟨?_, ?_, ?_⟩
  · intro hle
    have hcond : needsNewSession n2 (getSessionId u1 n1 s).2 = false := by
      unfold needsNewSession
      rw [hid, hts]
      simp only [jsFalsyStr, jsFalsyNat, Option.getD_some]
      simp [hne, hNe0, SESSION_TIMEOUT_MS]
      simp [SESSION_TIMEOUT_MS] at hle
      omega
    rw [(getSessionId_reuse u2 n2 _ hcond).1, hid]
    rfl
  · intro hgt hneq
    have h3 : ((n2 : Int) - ((n1 : Nat) : Int) > (SESSION_TIMEOUT_MS : Int)) := hgt
    have hcond : needsNewSession n2 (getSessionId u1 n1 s).2 = true := by
      unfold needsNewSession
      rw [hts]
      simp only [Option.getD_some]
      simp [h3]
    rw [getSessionId_fresh u2 n2 _ hcond]
    exact ⟨rfl, hneq, rfl⟩
  · intro u n s2
    by_cases hc2 : needsNewSession n s2 = true
    · rw [getSessionId_fresh u n s2 hc2]
    · simp [getSessionId, hc2]

/-- Witness for C4: fresh state; first call at t=1000 creates an id, a call
29 minutes later reuses it, and a call 31 minutes after that rotates it. -/
theorem getSessionId_sliding_window_w :
    (getSessionId "uuid-b" 1741000 (getSessionId "uuid-a" 1000 ⟨none, none⟩).2).1 =
      (getSessionId "uuid-a" 1000 ⟨none, none⟩).1 ∧
    (getSessionId "uuid-c" 2801001 (getSessionId "uuid-a" 1000 ⟨none, none⟩).2).1 = "uuid-c" ∧
    (getSessionId "uuid-a" 1000 ⟨none, none⟩).2.storedTs = some 1000 := by
  have h := getSessionId_sliding_window ⟨none, none⟩ "uuid-a" "uuid-b" 1000 1741000
    (by decide) (by decide)
  have h2 := getSessionId_sliding_window ⟨none, none⟩ "uuid-a" "uuid-c" 1000 2801001
    (by decide) (by decide)
  exact ⟨h.1 (by decide), (h2.2.1 (by decide) (by decide)).1, h.2.2 "uuid-a" 1000 ⟨none, none⟩⟩

/-! ## C10 — the buffer never exceeds the batch cap -/

/-- A flush of a non-empty buffer not exceeding the cap drains it to empty
and batches the entire buffer. -/
theorem flushBandwidthBatch_full (cfg : Config) (env : Env)
    (buf : List BandwidthResourceEntry) (h1 : buf ≠ [])
    (h2 : buf.length ≤ cfg.bandwidth.maxBatchSize) :
    (flushBandwidthBatch cfg env buf).buffer = [] ∧
    ((flushBandwidthBatch cfg env buf).payload.map fun p => p.resources) = some buf := by
  have hne : buf.isEmpty = false := by
    cases buf with
    | nil => exact absurd rfl h1
    | cons a l => rfl
  simp [flushBandwidthBatch, hne, List.take_of_length_le h2, List.drop_eq_nil_of_le h2]

/-- One `recordResourceTiming` step preserves `buffer.length < maxBatchSize`,
and whenever it flushes, the batch fits the cap and the buffer is left empty. -/
theorem recordResourceTiming_step (cfg : Config) (env : Env)
    (buf : List BandwidthResourceEntry) (e : PerfEntry)
    (hmax : 1 ≤ cfg.bandwidth.maxBatchSize)
    (hlt : buf.length < cfg.bandwidth.maxBatchSize) :
    (recordResourceTiming cfg env buf e).buffer.length < cfg.bandwidth.maxBatchSize ∧
    ∀ p, (recordResourceTiming cfg env buf e).flushed = some p →
      (p.resources.length ≤ cfg.bandwidth.maxBatchSize ∧
       (recordResourceTiming cfg env buf e).buffer = []) := by
  unfold recordResourceTiming
  by_cases hf : (!cfg.bandwidth.resourceTypes.isEmpty &&
      !(cfg.bandwidth.resourceTypes.contains
        (if e.initiatorType = "" then "other" else e.initiatorType))) = true
  · rw [if_pos hf]
    exact ⟨hlt, fun p hp => Option.noConfusion hp⟩
  · rw [if_neg hf]
    by_cases htr : cfg.bandwidth.maxBatchSize ≤ (buf ++ [normalizeEntry cfg env e]).length
    · rw [if_pos htr]
      have hlen : (buf ++ [normalizeEntry cfg env e]).length ≤ cfg.bandwidth.maxBatchSize := by
        simp
        omega
      have hfull := flushBandwidthBatch_full cfg env (buf ++ [normalizeEntry cfg env e])
        (by simp) hlen
      refine ⟨?_, ?_⟩
      · show (flushBandwidthBatch cfg env (buf ++ [normalizeEntry cfg env e])).buffer.length <
          cfg.bandwidth.maxBatchSize
        rw [hfull.1]
        simpa using hmax
      · intro p hp
        have hp2 : (flushBandwidthBatch cfg env (buf ++ [normalizeEntry cfg env e])).payload
            = some p := hp
        have hres := hfull.2
        rw [hp2] at hres
        simp at hres
        constructor
        · rw [hres]
          exact hlen
        · exact hfull.1
    · rw [if_neg htr]
      refine ⟨?_, fun p hp => Option.noConfusion hp⟩
      show (buf ++ [normalizeEntry cfg env e]).length < cfg.bandwidth.maxBatchSize
      simp at htr ⊢
      omega

/-- The run-level invariant behind C10, by induction over the recordings. -/
theorem recordAll_invariant (cfg : Config) (hmax : 1 ≤ cfg.bandwidth.maxBatchSize) :
    ∀ (es : List PerfEntry) (st : BatchRun),
      st.buffer.length < cfg.bandwidth.maxBatchSize →
      (∀ p ∈ st.flushed, p.resources.length ≤ cfg.bandwidth.maxBatchSize) →
      ((recordAll cfg es st).buffer.length < cfg.bandwidth.maxBatchSize ∧
       ∀ p ∈ (recordAll cfg es st).flushed,
         p.resources.length ≤ cfg.bandwidth.maxBatchSize) := by
  intro es
  induction es with
  | nil => intro st h1 h2; exact ⟨h1, h2⟩
  | cons e es ih =>
    intro st h1 h2
    obtain ⟨hstep1, hstep2⟩ := recordResourceTiming_step cfg st.env st.buffer e hmax h1
    refine ih _ hstep1 ?_
    intro p hp
    rcases List.mem_append.mp hp with hold | hnew
    · exact h2 p hold
    · cases hflush : (recordResourceTiming cfg st.env st.buffer e).flushed with
      | none => rw [hflush] at hnew; simp at hnew
      | some q =>
        rw [hflush] at hnew
        simp at hnew
        rw [hnew]
        exact (hstep2 q hflush).1

/-- C10 (confirmed): with `maxBatchSize ≥ 1`, over any sequence of
resource-timing recordings starting from the empty buffer, the buffer holds
strictly fewer than `maxBatchSize` entries after every completed recording,
no flushed batch ever exceeds `maxBatchSize` entries, and the recording
that fills the buffer up to the cap flushes it down to empty. -/
theorem recordResourceTiming_buffer_bounded (cfg : Config) (env : Env)
    (es : List PerfEntry) (hmax : 1 ≤ cfg.bandwidth.maxBatchSize) :
    ((recordAll cfg es { buffer := [], env := env, flushed := [] }).buffer.length <
        cfg.bandwidth.maxBatchSize ∧
     ∀ p ∈ (recordAll cfg es { buffer := [], env := env, flushed := [] }).flushed,
       p.resources.length ≤ cfg.bandwidth.maxBatchSize) ∧
    (∀ (env2 : Env) (buf : List BandwidthResourceEntry) (e : PerfEntry)
        (p : BandwidthPayload),
      buf.length < cfg.bandwidth.maxBatchSize →
      (recordResourceTiming cfg env2 buf e).flushed = some p →
      (recordResourceTiming cfg env2 buf e).buffer = []) := by
  refine ⟨?_, ?_⟩
  · exact recordAll_invariant cfg hmax es { buffer := [], env := env, flushed := [] }
      (by simpa using hmax) (by intro p hp; simp at hp)
  · intro env2 buf e p hlt hsome
    exact ((recordResourceTiming_step cfg env2 buf e hmax hlt).2 p hsome).2

/-- Sample observed resource-timing entries for the C10 witness. -/
def pe1 : PerfEntry :=
  { name := "https://cdn/a.js", initiatorType := "script", transferSize := some 100,
    encodedBodySize := some 90, decodedBodySize := some 300, duration := some 12,
    startTime := some 1 }

/-- Second sample observation, with missing numeric fields. -/
def pe2 : PerfEntry :=
  { name := "https://cdn/b.png", initiatorType := "img", transferSize := none,
    encodedBodySize := none, decodedBodySize := none, duration := none,
    startTime := none }

/-- Third sample observation, with an empty initiator type. -/
def pe3 : PerfEntry :=
  { name := "https://cdn/c.css", initiatorType := "", transferSize := some 50,
    encodedBodySize := some 40, decodedBodySize := some 120, duration := some 5,
    startTime := some 3 }

/-- Witness for C10: three recordings against a cap of two leave one entry
buffered and flushed exactly one batch of two. -/
theorem recordResourceTiming_buffer_bounded_w :
    (recordAll cfgB [pe1, pe2, pe3]
        { buffer := [], env := envTick, flushed := [] }).buffer.length < 2 ∧
    ∀ p ∈ (recordAll cfgB [pe1, pe2, pe3]
        { buffer := [], env := envTick, flushed := [] }).flushed,
      p.resources.length ≤ 2 := by
  have h := recordResourceTiming_buffer_bounded cfgB envTick [pe1, pe2, pe3] (by decide)
  exact h.1

/-! ## C8 — empty events are rejected; transported payloads are well-formed -/

/-- The context's `projectId` is always populated from the instance. -/
theorem getContext_projectId (cfg : Config) (env : Env) :
    (getContext cfg env).projectId = some cfg.projectId := by
  unfold getContext
  by_cases h : env.hasWindow <;> simp [h]

/-- C8 (confirmed): `track` with an empty event warns locally and returns
`false` with no transport call at all; and every payload that does reach
the transport has a non-empty event, a level among the three enumerated
values, and `context.projectId` set to the instance's project id. -/
theorem track_rejects_empty_event (cfg : Config) (env : Env) (md : Option BlipMetadata)
    (lvl : BlipLevel) :
    ((track cfg env "" md lvl).ret = false ∧
     (track cfg env "" md lvl).warned = true ∧
     (track cfg env "" md lvl).sentToTransport = none ∧
     (track cfg env "" md lvl).sendOut = none) ∧
    (∀ (e : String) (md2 : Option BlipMetadata) (lvl2 : BlipLevel) (p : BlipPayload),
      (track cfg env e md2 lvl2).sentToTransport = some p →
      (p.event ≠ "" ∧
       (p.level = BlipLevel.info ∨ p.level = BlipLevel.warn ∨ p.level = BlipLevel.error) ∧
       p.context.projectId = some cfg.projectId)) := by
  refine ⟨by simp [track], ?_⟩
  intro e md2 lvl2 p hp
  by_cases he : e = ""
  · rw [he] at hp
    simp [track] at hp
  · simp only [track, he, if_neg, reduceIte] at hp
    injection hp with hp2
    subst hp2
    refine ⟨he, ?_, getContext_projectId cfg _⟩
    cases lvl2 <;> simp

/-- Witness for C8: the empty event is rejected outright, and the payload of
a real event carries the project id. -/
theorem track_rejects_empty_event_w :
    (track cfgA envTick "" none BlipLevel.info).ret = false ∧
    (track cfgA envTick "" none BlipLevel.info).warned = true ∧
    ((track cfgA envTick "signup" none BlipLevel.warn).sentToTransport.map
        fun p => p.context.projectId) = some (some "p1") := by
  have h := track_rejects_empty_event cfgA envTick none BlipLevel.info
  refine ⟨h.1.1, h.1.2.1, ?_⟩
  cases hs : (track cfgA envTick "signup" none BlipLevel.warn).sentToTransport with
  | none => exact absurd hs (by decide)
  | some p =>
    have h2 := h.2 "signup" none BlipLevel.warn p hs
    simp [h2.2.2, cfgA]

/-! ## C1 — the two timestamp fields come from two separate clock reads -/

/-- The session-tracker wrapper never changes the clock oracle itself. -/
theorem getSessionIdEnv_clock (env : Env) :
    (getSessionIdEnv env).2.clock = env.clock := by
  cases hw : env.hasWindow
  · simp [getSessionIdEnv, hw]
  · cases hs : env.storage <;> simp [getSessionIdEnv, hw, hs]

/-- C1 (corrected, amended form): the payload always carries both fields —
`timestamp_ms` from the `Date.now()` read at the start of `track` and
`timestamp` from the separate `new Date()` read during payload assembly —
so whenever the clock does not advance during the call (every read returns
`c`), the two fields are mutually consistent: `timestamp_ms = c` and the
ISO field is exactly `isoString c`. -/
theorem track_timestamps_from_two_clock_reads (cfg : Config) (env : Env) (e : String)
    (md : Option BlipMetadata) (lvl : BlipLevel) (c : Nat)
    (he : e ≠ "") (hc : ∀ i, env.clock i = c) :
    ((track cfg env e md lvl).sentToTransport.map fun p => p.timestamp_ms) =
      some (some c) ∧
    ((track cfg env e md lvl).sentToTransport.map fun p => p.timestamp) =
      some (isoString c) := by
  by_cases hcol : cfg.privacy.collectSessionId = true <;>
    constructor <;>
      simp [track, he, hc, hcol, getSessionIdEnv_clock]

/-- Witness for the amended C1 under a constant clock. -/
theorem track_timestamps_from_two_clock_reads_w :
    ((track cfgA { envTick with clock := fun _ => 1700000000123 }
        "signup" none BlipLevel.warn).sentToTransport.map fun p => p.timestamp_ms) =
      some (some 1700000000123) ∧
    ((track cfgA { envTick with clock := fun _ => 1700000000123 }
        "signup" none BlipLevel.warn).sentToTransport.map fun p => p.timestamp) =
      some (isoString 1700000000123) :=
  track_timestamps_from_two_clock_reads cfgA
    { envTick with clock := fun _ => 1700000000123 } "signup" none BlipLevel.warn
    1700000000123 (by decide) (fun _ => rfl)

/-- Counterexample to C1 as stated: with a clock that advances one
millisecond between the two reads inside one `track` call (reads 1000 then
1001), the dispatched payload has `timestamp_ms = 1000` while the ISO field
is `new Date(1001).toISOString()` — the millisecond value of the ISO field
is 1001, not 1000, so the two fields are not mutually consistent. -/
theorem track_timestamp_fields_inconsistent_cex :
    ((track cfgA envTick "signup" none BlipLevel.warn).sentToTransport.map
        fun p => p.timestamp_ms) = some (some 1000) ∧
    ((track cfgA envTick "signup" none BlipLevel.warn).sentToTransport.map
        fun p => p.timestamp) = some "1970-01-01T00:00:01.001Z" ∧
    isoString 1001 = "1970-01-01T00:00:01.001Z" ∧
    isoString 1000 ≠ "1970-01-01T00:00:01.001Z" := by
  exact ⟨by decide, by decide, by decide, by decide⟩

/-! ## C2 — send's return value and the no-transport error -/

/-- The `unknown` error `sendWithFetch` reports when `fetch` is missing. -/
def noTransportError : BlipError :=
  { kind := ErrKind.unknown,
    message := "No suitable transport available (fetch not defined)",
    statusCode := none }

/-- C2 (corrected, amended form): `send` returns `true` exactly when an
attempt was dispatched on the beacon or the fetch channel; the return value
never depends on the eventual fetch outcome — a rejection only surfaces as
an asynchronous `network` error while the call still returned `true`; and
`send` returns `false`, reporting the `unknown` no-transport error
synchronously, exactly when the fetch mechanism does not exist and the
beacon path did not accept the payload (beacon missing, rejecting, or
throwing) — not only when neither mechanism exists. -/
theorem send_dispatch_semantics (cfg : Config) (env : Env) (p : BlipPayload) :
    ((send cfg env p).ret = true ↔ (send cfg env p).channel ≠ none) ∧
    (∀ fo : FetchOutcome,
      (send cfg { env with fetchOutcome := fo } p).ret = (send cfg env p).ret) ∧
    (∀ m : String, (send cfg env p).channel = some Channel.fetch →
      env.fetchOutcome = FetchOutcome.rejects m →
      ((send cfg env p).ret = true ∧
       (send cfg env p).asyncErrors =
         [{ kind := ErrKind.network,
            message := if m = "" then "Network request failed" else m,
            statusCode := none }])) ∧
    ((send cfg env p).ret = false ↔
      (fetchExists env = false ∧
       ¬(beaconExists env = true ∧ env.beaconOutcome = BeaconOutcome.accepted))) ∧
    ((send cfg env p).ret = false → (send cfg env p).syncErrors = [noTransportError]) := by
  obtain ⟨ck, ci, uu, ui, hw, st, hr, rf, ua, hn, hb, bo, hf, fo, pr⟩ := env
  cases hn <;> cases hb <;> cases bo <;> cases hf <;> cases fo <;>
    simp [send, sendWithFetch, beaconExists, fetchExists, noTransportError, httpOk]

/-- Environment in which `navigator.sendBeacon` exists but declines the
payload, and `fetch` does not exist. -/
def envBeaconBlockedNoFetch : Env :=
  { envTick with
    hasNavigator := true
    hasBeacon := true
    beaconOutcome := BeaconOutcome.rejected
    hasFetch := false }

/-- A concrete event payload for the transport counterexamples. -/
def payloadX : BlipPayload :=
  { event := "signup", level := BlipLevel.info, metadata := none,
    context := { projectId := some "p1", url := none, referrer := none, userAgent := none },
    timestamp := "1970-01-01T00:00:01.000Z", session_id := none,
    timestamp_ms := some 1000, anonymize_ip := none }

/-- Counterexample to C2 as stated: here the beacon mechanism exists in the
environment (it merely declined the payload) and yet `send` returns `false`
— so "returns `false` exactly when neither the beacon mechanism nor the
fetch mechanism exists" is violated; the `unknown` error is still reported. -/
theorem send_false_despite_beacon_present_cex :
    (send cfgA envBeaconBlockedNoFetch payloadX).ret = false ∧
    beaconExists envBeaconBlockedNoFetch = true ∧
    fetchExists envBeaconBlockedNoFetch = false ∧
    (send cfgA envBeaconBlockedNoFetch payloadX).syncErrors = [noTransportError] := by
  exact ⟨by decide, by decide, by decide, by decide⟩

/-- Witness for the amended C2: with no transport at all, `send` returns
`false` and reports the `unknown` error; with fetch present the call
returns `true` even though the request will later be rejected. -/
theorem send_dispatch_semantics_w :
    ((send cfgA { envTick with hasFetch := false } payloadX).ret = false ∧
     (send cfgA { envTick with hasFetch := false } payloadX).syncErrors =
       [noTransportError]) ∧
    (send cfgA { envTick with fetchOutcome := FetchOutcome.rejects "net down" }
        payloadX).ret = true := by
  have h := send_dispatch_semantics cfgA { envTick with hasFetch := false } payloadX
  have h2 := send_dispatch_semantics cfgA
    { envTick with fetchOutcome := FetchOutcome.rejects "net down" } payloadX
  refine ⟨⟨?_, ?_⟩, ?_⟩
  · exact h.2.2.2.1.mpr (by decide)
  · exact h.2.2.2.2 (h.2.2.2.1.mpr (by decide))
  · exact (h2.2.2.1 "net down" (by decide) (by decide)).1

/-! ## C9 — bandwidth send: dual path, but silent when no transport exists -/

/-- A concrete bandwidth payload for the C9 statements. -/
def bwPayloadX : BandwidthPayload :=
  { resources := [bwr1], session_id := none, timestamp_ms := 1000,
    api_key := some "key-1", project_id := some "p1",
    context := { projectId := some "p1", url := none, referrer := none, userAgent := none },
    totalTransferSize := 100, resourceCount := 1, userAgent := none }

/-- C9 (corrected, amended form): `sendBandwidth` follows the same
dual-path shape as `send` — beacon primary, fetch fallback on beacon
unavailability, exception, or rejection — and on the fetch path response
statuses are never interpreted (a resolved response reports nothing,
whatever its status) while a rejection is reported as a generic `network`
error; but when neither path can dispatch, it returns `false` without
reporting any error at all (unlike `send`'s synchronous `unknown` error). -/
theorem sendBandwidth_dispatch_semantics (env : Env) (p : BandwidthPayload) :
    ((beaconExists env = true ∧ env.beaconOutcome = BeaconOutcome.accepted) →
      ((sendBandwidth env p).ret = true ∧
       (sendBandwidth env p).channel = some Channel.beacon)) ∧
    ((beaconExists env = false ∨ env.beaconOutcome ≠ BeaconOutcome.accepted) →
      fetchExists env = true →
      ((sendBandwidth env p).ret = true ∧
       (sendBandwidth env p).channel = some Channel.fetch ∧
       (∀ st : Nat, env.fetchOutcome = FetchOutcome.resolves st →
         (sendBandwidth env p).asyncErrors = []) ∧
       (∀ m : String, env.fetchOutcome = FetchOutcome.rejects m →
         (sendBandwidth env p).asyncErrors =
           [{ kind := ErrKind.network,
              message := if m = "" then "Bandwidth tracking request failed" else m,
              statusCode := none }]))) ∧
    ((beaconExists env = false ∨ env.beaconOutcome ≠ BeaconOutcome.accepted) →
      fetchExists env = false →
      ((sendBandwidth env p).ret = false ∧
       (sendBandwidth env p).syncErrors = [] ∧
       (sendBandwidth env p).asyncErrors = [])) := by
  obtain ⟨ck, ci, uu, ui, hw, st, hr, rf, ua, hn, hb, bo, hf, fo, pr⟩ := env
  cases hn <;> cases hb <;> cases bo <;> cases hf <;> cases fo <;>
    simp [sendBandwidth, bandwidthFetchFallback, beaconExists, fetchExists]

/-- Counterexample to C9 as stated: with neither mechanism in the
environment, `sendBandwidth` returns `false` but reports no error of any
kind — the claimed error report does not happen. -/
theorem sendBandwidth_silent_false_cex :
    (sendBandwidth { envTick with hasFetch := false } bwPayloadX).ret = false ∧
    beaconExists { envTick with hasFetch := false } = false ∧
    fetchExists { envTick with hasFetch := false } = false ∧
    (sendBandwidth { envTick with hasFetch := false } bwPayloadX).syncErrors = [] ∧
    (sendBandwidth { envTick with hasFetch := false } bwPayloadX).asyncErrors = [] := by
  exact ⟨by decide, by decide, by decide, by decide, by decide⟩

/-- Environment with a declining beacon and a fetch that resolves 500. -/
def envBeaconRejFetch500 : Env :=
  { envTick with
    hasNavigator := true
    hasBeacon := true
    beaconOutcome := BeaconOutcome.rejected
    fetchOutcome := FetchOutcome.resolves 500 }

/-- Witness for the amended C9: a rejected beacon falls back to fetch and
still returns `true`, with a 500 response reported nowhere; and with no
transport the call is silently `false`. -/
theorem sendBandwidth_dispatch_semantics_w :
    ((sendBandwidth envBeaconRejFetch500 bwPayloadX).ret = true ∧
     (sendBandwidth envBeaconRejFetch500 bwPayloadX).asyncErrors = []) ∧
    (sendBandwidth { envTick with hasFetch := false } bwPayloadX).ret = false := by
  have h := sendBandwidth_dispatch_semantics envBeaconRejFetch500 bwPayloadX
  have h2 := sendBandwidth_dispatch_semantics { envTick with hasFetch := false } bwPayloadX
  have hmid := h.2.1 (Or.inr (by decide)) (by decide)
  exact ⟨⟨hmid.1, hmid.2.2.1 500 (by decide)⟩,
    (h2.2.2 (Or.inl (by decide)) (by decide)).1⟩
